import Mathlib

/-!
Shallow embedding of the heuristic forecasting core of the `zambretti`
Home-Assistant integration (directory `custom_components/zambretti`):
`helpers.safe_float`, `weather_processing.zambretti_forecast`, the alert
aggregation of `sensor.Zambretti.async_update`, the trend classification and
resampling of `pressure_analysis.determine_pressure_trend`,
`low_estimator.estimate_low_properties` and `fog_analysis.determine_fog_chance`.

Python floats are idealised as rationals (`ℚ`); where the source calls
`math.log` the model moves to `ℝ` with `Real.log`.  Python runtime errors
(TypeError, AttributeError, ZeroDivisionError, ValueError, IndexError) are
modelled with `Except String`; a `.error` value means the Python code raises.
-/

/-- Python `round(x)`: round half to even (banker's rounding), on a rational. -/
def pyRound (q : ℚ) : ℤ :=
  let f := ⌊q⌋
  let r := q - f
  if r < 1/2 then f
  else if r > 1/2 then f + 1
  else if f % 2 = 0 then f else f + 1

/-- Python `round(x, 1)` on a rational. -/
def pyRound1 (q : ℚ) : ℚ := (pyRound (10 * q) : ℚ) / 10

/-- Python `round(x, 2)` on a rational. -/
def pyRound2 (q : ℚ) : ℚ := (pyRound (100 * q) : ℚ) / 100

/-- Python `round(x, 3)` on a rational. -/
def pyRound3 (q : ℚ) : ℚ := (pyRound (1000 * q) : ℚ) / 1000

/-- A Python scalar as the estimators receive it: `None`, a number
(int/float, idealised as `ℚ`), or a string.  A string carries the result of
`float(s)` on it (`none` when the string does not parse as a float), so that
the tolerant converters can be modelled without re-implementing Python's
float grammar. -/
inductive PyVal where
  | none : PyVal
  | num (q : ℚ) : PyVal
  | str (s : String) (parsed : Option ℚ) : PyVal
deriving DecidableEq, Repr

/-- `helpers.safe_float(value, default=0.0)`: converts to float, returning
the default when the conversion raises `ValueError`/`TypeError`. -/
def safe_float (value : PyVal) (d : ℚ) : ℚ :=
  match value with
  | .none => d
  | .num q => q
  | .str _ p => p.getD d

/-- `low_estimator._safe_float(x)`: float conversion returning `None` for
`None`/invalid input (NaN does not arise in the rational idealisation). -/
def lowSafeFloat (x : PyVal) : Option ℚ :=
  match x with
  | .none => Option.none
  | .num q => some q
  | .str _ p => p

/-- Python `str.lower()` (character-level model, so it reduces in proofs). -/
def pyLower (s : String) : String := String.mk (s.data.map Char.toLower)

/-- Python `str.upper()`. -/
def pyUpper (s : String) : String := String.mk (s.data.map Char.toUpper)

/-- Python `str.startswith(pre)`. -/
def pyStartsWith (s pre : String) : Bool := pre.data.isPrefixOf s.data

/-- Python `str.strip()`. -/
def pyStrip (s : String) : String :=
  String.mk (((s.data.dropWhile Char.isWhitespace).reverse.dropWhile
    Char.isWhitespace).reverse)

/-- `str.split(" ")` on the character list (keeps empty fields, as Python
does with an explicit separator). -/
def splitOnSpaceAux : List Char → List Char → List (List Char)
  | [], cur => [cur.reverse]
  | c :: rest, cur =>
    if c = ' ' then cur.reverse :: splitOnSpaceAux rest []
    else splitOnSpaceAux rest (c :: cur)

/-- Capitalise one word the way `str.title()` does (first letter upper,
rest lower). -/
def capWord (w : List Char) : String :=
  match w with
  | [] => ""
  | c :: rest => String.mk (c.toUpper :: rest.map Char.toLower)

/-- Python `str.title()` on the words of a string. -/
def pyTitle (s : String) : String :=
  String.intercalate (" ") ((splitOnSpaceAux s.data []).map capWord)

/-- Substring search on character lists. -/
def listInfix (needle : List Char) : List Char → Bool
  | [] => needle.isPrefixOf []
  | c :: rest => needle.isPrefixOf (c :: rest) || listInfix needle rest

/-- Python `needle in haystack` on strings (substring test). -/
def pyInStr (needle hay : String) : Bool :=
  listInfix needle.data hay.data

/-- Render a non-negative multiple of 1/10 the way Python prints such a
float (always exactly one digit after the point, e.g. `0.8`, `12.0`). -/
def tenthsRepr (q : ℚ) : String :=
  let m := (10 * q).floor.toNat
  let a := m / 10
  let b := m % 10
  s!"{a}.{b}"

/-- Python's ordered comparison `v > c` between a raw value and a number:
`TypeError` unless `v` is numeric. -/
def pyGtNum (v : PyVal) (c : ℚ) : Except String Bool :=
  match v with
  | .num q => .ok (decide (q > c))
  | _ => .error ("TypeError")

/-- Python's ordered comparison `v < c` between a raw value and a number:
`TypeError` unless `v` is numeric. -/
def pyLtNum (v : PyVal) (c : ℚ) : Except String Bool :=
  match v with
  | .num q => .ok (decide (q < c))
  | _ => .error ("TypeError")

/-- Python `max(fl, w + off)` where `w` is a raw value: `TypeError` unless
`w` is numeric. -/
def pyMaxAdd (fl : ℚ) (w : PyVal) (off : ℚ) : Except String ℚ :=
  match w with
  | .num q => .ok (max fl (q + off))
  | _ => .error ("TypeError")

/-- Python `v != 0` on a raw value (`None != 0` and `"x" != 0` are `True`). -/
def pyNeZero (v : PyVal) : Bool :=
  match v with
  | .num q => decide (q ≠ 0)
  | _ => true

/-- Python `round(v, 1)` on a raw value: `TypeError` unless numeric. -/
def pyRoundNum1 (v : PyVal) : Except String ℚ :=
  match v with
  | .num q => .ok (pyRound1 q)
  | _ => .error ("TypeError")

theorem exceptBindOk {ε α β : Type} (a : α) (f : α → Except ε β) :
    ((Except.ok a : Except ε α) >>= f) = f a := rfl

theorem exceptMapOk {ε α β : Type} (a : α) (f : α → β) :
    (Except.map f (Except.ok a : Except ε α)) = Except.ok (f a) := rfl

theorem exceptMapErr {ε α β : Type} (e : ε) (f : α → β) :
    (Except.map f (Except.error e : Except ε α)) = Except.error e := rfl

/-- `const.ICON_MAPPING` (day icon, night icon). -/
def ICON_MAPPING : List (String × String) :=
  [("mdi:weather-sunny", "mdi:weather-night"),
   ("mdi:weather-partly-cloudy", "mdi:weather-night-partly-cloudy"),
   ("mdi:weather-partly-rainy", "mdi:weather-partly-rainy"),
   ("mdi:weather-cloudy", "mdi:weather-cloudy"),
   ("mdi:weather-rainy", "mdi:weather-rainy"),
   ("mdi:weather-pouring", "mdi:weather-pouring"),
   ("mdi:weather-lightning-rainy", "mdi:weather-lightning-rainy"),
   ("mdi:weather-windy", "mdi:weather-windy"),
   ("mdi:weather-hurricane-outline", "mdi:weather-hurricane-outline")]

/-- `ICON_MAPPING[i][0]`. -/
def iconAt (i : ℕ) : String := (ICON_MAPPING.getD i (("", ""))).1

/-- The `plus_minus` dict lookup of `weather_processing.zambretti_forecast`
(the `falling` entry is the byte sequence present in the source file). -/
def plusMinusGet (trend : String) : Option String :=
  if trend = "rising" then some ("+")
  else if trend = "steady" then some ("+")
  else if trend = "falling" then some ("Â±")
  else if trend = "falling_fast" then some ("-")
  else if trend = "plummeting" then some ("-")
  else Option.none

/-- `weather_processing.zambretti_forecast` lines 29–35: the temperature
modifier.  Note the truthiness guard `if safe_float(temperature):`, under
which a temperature of exactly 0 (or a missing/unparseable one, which
`safe_float` sends to 0.0) leaves the modifier at 0. -/
def tempModifier (temperature : PyVal) : ℚ :=
  if safe_float temperature 0 ≠ 0 then
    if safe_float temperature 0 > 25 then 1
    else if safe_float temperature 0 < 5 then -1
    else 0
  else 0

/-- The pressure-prefix f-string of `zambretti_forecast` (line 22):
`f"{d_trend} pressure, {plus_minus.get(trend)}{abs(round(fall,1))}/hr. "`
when `fall != 0`, else the empty string; `round(fall, 1)` raises `TypeError`
on non-numeric `fall`. -/
def zfPfxRaw (fall : PyVal) (d_trend pm : String) : Except String String :=
  if pyNeZero fall then
    (pyRoundNum1 fall).map
      (fun r => d_trend ++ " pressure, " ++ pm ++ tenthsRepr |r| ++ "/hr. ")
  else Except.ok ("")

/-- The tuple returned by `zambretti_forecast`:
`(forecast, icon, alert_level, estimated_wind_speed, estimated_max_wind_speed)`.
`estimated_wind_speed` is returned as the raw Python value, because in the
default branch the input `current_wind_speed` is passed through unchanged. -/
structure ZfResult where
  forecast : String
  icon : String
  alert_level : ℚ
  estimated_wind_speed : PyVal
  estimated_max_wind_speed : ℤ
deriving DecidableEq, Repr

/-- The common tail of `zambretti_forecast`:
`estimated_max_wind_speed = round(safe_float(estimated_wind_speed) * 1.2)`. -/
def zfFinish (forecast icon : String) (alert : ℚ) (ews : PyVal) : ZfResult :=
  { forecast := forecast, icon := icon, alert_level := alert,
    estimated_wind_speed := ews,
    estimated_max_wind_speed := pyRound (safe_float ews 0 * (6/5)) }  -- * 1.2

/-- `weather_processing.zambretti_forecast(pressure, fall, trend,
current_wind_speed, temperature)`.  Python runtime errors are surfaced in
`Except`: `trend.replace` on a non-string raises `AttributeError`;
`round(fall, 1)`, the ordered comparisons `pressure > …` / `temperature < 0`
and the arithmetic on `current_wind_speed` raise `TypeError` on
`None`/unparseable input.  The running `alert_level` is 0 when each cell's
`max(floor, alert_level + temp_modifier)` is evaluated. -/
def zambretti_forecast (pressure fall trend current_wind_speed temperature : PyVal) :
    Except String ZfResult := do
  let tstr ← match trend with
    | .str s _ => Except.ok s
    | _ => Except.error ("AttributeError")
  let d_trend := pyTitle (tstr.replace ("_") (" "))
  let pm := (plusMinusGet tstr).getD ("None")
  let fc0 ← zfPfxRaw fall d_trend pm
  let tm := tempModifier temperature
  let alert0 : ℚ := 0
  if tstr = "rising" then
    if ← pyGtNum pressure 1020 then do
      let ews ← pyMaxAdd 5 current_wind_speed (-3)
      Except.ok (zfFinish (fc0 ++ "Clear(ish) skies, little to no rain, mild temperatures.")
        (iconAt 0) (max 0 (alert0 + tm)) (.num ews))
    else if ← pyGtNum pressure 1010 then do
      let ews ← pyMaxAdd 5 current_wind_speed (-2)
      Except.ok (zfFinish (fc0 ++ "Stable, calm, and pleasant weather, possible light clouds.")
        (iconAt 1) (max 0 (alert0 + tm)) (.num ews))
    else do
      let ews ← pyMaxAdd 10 current_wind_speed 0
      Except.ok (zfFinish (fc0 ++ "Improving conditions, clearing skies.")
        (iconAt 2) (max 0 (alert0 + tm)) (.num ews))
  else if tstr = "steady" then
    if ← pyGtNum pressure 1020 then do
      let ews ← pyMaxAdd 5 current_wind_speed 0
      Except.ok (zfFinish (fc0 ++ "Continued fair, calm and predictable weather.")
        (iconAt 0) (max 0 (alert0 + tm)) (.num ews))
    else if ← pyGtNum pressure 1010 then do
      let ews ← pyMaxAdd 8 current_wind_speed 0
      Except.ok (zfFinish (fc0 ++ "Fair weather with occasional clouds.")
        (iconAt 1) (max 0 (alert0 + tm)) (.num ews))
    else do
      let ews ← pyMaxAdd 12 current_wind_speed 3
      Except.ok (zfFinish (fc0 ++ "Changeable weather, gusty winds, possible rain later.")
        (iconAt 3) (max 1 (alert0 + tm)) (.num ews))
  else if tstr = "falling" then
    if ← pyGtNum pressure 1020 then do
      let ews ← pyMaxAdd 15 current_wind_speed 5
      Except.ok (zfFinish (fc0 ++ "Possible deterioration, watch for winds.")
        (iconAt 2) (max 1 (alert0 + tm)) (.num ews))
    else if ← pyGtNum pressure 1010 then do
      let ews ← pyMaxAdd 20 current_wind_speed 8
      Except.ok (zfFinish (fc0 ++ "Changeable weather, gusty winds, increasing cloud cover.")
        (iconAt 4) (max 2 (alert0 + tm)) (.num ews))
    else do
      let snow ← pyLtNum temperature 0
      let fc := fc0 ++ "Stormy conditions likely, heavy rain expected."
        ++ (if snow then " â„ï¸ Possible snow instead of rain." else "")
      let ews ← pyMaxAdd 25 current_wind_speed 12
      Except.ok (zfFinish fc (iconAt 5) (max 3 (alert0 + tm)) (.num ews))
  else if tstr = "falling_fast" then
    if ← pyGtNum pressure 1005 then do
      let ews ← pyMaxAdd 25 current_wind_speed 12
      Except.ok (zfFinish (fc0 ++ "Windy, rain likely.")
        (iconAt 4) (max 3 (alert0 + tm)) (.num ews))
    else if ← pyGtNum pressure 990 then do
      let snow ← pyLtNum temperature 0
      let fc := fc0 ++ "Strong winds, rain, possible squalls."
        ++ (if snow then " â„ï¸ Snowstorm possible!" else "")
      let ews ← pyMaxAdd 30 current_wind_speed 15
      Except.ok (zfFinish fc (iconAt 4) (max 4 (alert0 + tm)) (.num ews))
    else do
      let ews ← pyMaxAdd 40 current_wind_speed 25
      Except.ok (zfFinish (fc0 ++ "Very low pressure. Dangerous weather, high winds, big waves.")
        (iconAt 6) (max 5 (alert0 + tm)) (.num ews))
  else if tstr = "plummeting" then
    if ← pyGtNum pressure 1005 then do
      let snow ← pyLtNum temperature 0
      let fc := fc0 ++ "Strong winds, thunderstorms, possible storm system."
        ++ (if snow then "Blizzard conditions possible." else "")
      let ews ← pyMaxAdd 30 current_wind_speed 20
      Except.ok (zfFinish fc (iconAt 6) (max 4 (alert0 + tm)) (.num ews))
    else if ← pyGtNum pressure 990 then do
      let ews ← pyMaxAdd 40 current_wind_speed 25
      Except.ok (zfFinish (fc0 ++ "Low pressure. Major storm system, possible gale-force winds.")
        (iconAt 7) (max 5 (alert0 + tm)) (.num ews))
    else do
      let ews ← pyMaxAdd 50 current_wind_speed 30
      Except.ok (zfFinish (fc0 ++ "Very low pressure. Severe weather, hurricane/cyclone possible.")
        (iconAt 7) (max 5 (alert0 + tm)) (.num ews))
  else
    Except.ok (zfFinish fc0 ("mdi:zend") alert0 current_wind_speed)

/-- The forecast-text part of a cell result on numeric inputs (empty when the
pressure change is 0, otherwise the trend/rate sentence built by the source's
f-string). -/
def zfPfxQ (trend : String) (fall : ℚ) : String :=
  if fall ≠ 0 then
    pyTitle (trend.replace ("_") (" ")) ++ " pressure, " ++ (plusMinusGet trend).getD ("None")
      ++ tenthsRepr |pyRound1 fall| ++ "/hr. "
  else ""

/-- One cell of the decision table: fixed sentence, icon, alert floor with
the temperature modifier, and wind formula `max(wfloor, w + off)`. -/
def zfCellMk (pfx body icon : String) (floor tm wfloor w off : ℚ) : ZfResult :=
  zfFinish (pfx ++ body) icon (max floor tm) (.num (max wfloor (w + off)))

/-- The decision table of `zambretti_forecast` on numeric inputs: the five
trend buckets `rising`/`steady`/`falling`/`falling_fast`/`plummeting` are
classified against the fixed pressure thresholds 1020/1010 (first three) and
1005/990 (last two) into three bands each; any other trend (including the
sixth bucket `rising_fast`) falls through to the defaults (no sentence, icon
`mdi:zend`, alert 0, wind unchanged).  Snow sub-clauses apply when the
temperature is below 0 in `falling`'s lowest band, `falling_fast`'s middle
band and `plummeting`'s highest band. -/
def zfCellFun (trend : String) (p fall w t : ℚ) : ZfResult :=
  let pfx := zfPfxQ trend fall
  let tm := tempModifier (.num t)
  if trend = "rising" then
    if p > 1020 then
      zfCellMk pfx ("Clear(ish) skies, little to no rain, mild temperatures.") (iconAt 0) 0 tm 5 w (-3)
    else if p > 1010 then
      zfCellMk pfx ("Stable, calm, and pleasant weather, possible light clouds.") (iconAt 1) 0 tm 5 w (-2)
    else
      zfCellMk pfx ("Improving conditions, clearing skies.") (iconAt 2) 0 tm 10 w 0
  else if trend = "steady" then
    if p > 1020 then
      zfCellMk pfx ("Continued fair, calm and predictable weather.") (iconAt 0) 0 tm 5 w 0
    else if p > 1010 then
      zfCellMk pfx ("Fair weather with occasional clouds.") (iconAt 1) 0 tm 8 w 0
    else
      zfCellMk pfx ("Changeable weather, gusty winds, possible rain later.") (iconAt 3) 1 tm 12 w 3
  else if trend = "falling" then
    if p > 1020 then
      zfCellMk pfx ("Possible deterioration, watch for winds.") (iconAt 2) 1 tm 15 w 5
    else if p > 1010 then
      zfCellMk pfx ("Changeable weather, gusty winds, increasing cloud cover.") (iconAt 4) 2 tm 20 w 8
    else
      zfCellMk (pfx ++ "Stormy conditions likely, heavy rain expected.")
        (if t < 0 then " â„ï¸ Possible snow instead of rain." else "")
        (iconAt 5) 3 tm 25 w 12
  else if trend = "falling_fast" then
    if p > 1005 then
      zfCellMk pfx ("Windy, rain likely.") (iconAt 4) 3 tm 25 w 12
    else if p > 990 then
      zfCellMk (pfx ++ "Strong winds, rain, possible squalls.")
        (if t < 0 then " â„ï¸ Snowstorm possible!" else "")
        (iconAt 4) 4 tm 30 w 15
    else
      zfCellMk pfx ("Very low pressure. Dangerous weather, high winds, big waves.") (iconAt 6) 5 tm 40 w 25
  else if trend = "plummeting" then
    if p > 1005 then
      zfCellMk (pfx ++ "Strong winds, thunderstorms, possible storm system.")
        (if t < 0 then "Blizzard conditions possible." else "")
        (iconAt 6) 4 tm 30 w 20
    else if p > 990 then
      zfCellMk pfx ("Low pressure. Major storm system, possible gale-force winds.") (iconAt 7) 5 tm 40 w 25
    else
      zfCellMk pfx ("Very low pressure. Severe weather, hurricane/cyclone possible.") (iconAt 7) 5 tm 50 w 30
  else
    zfFinish pfx ("mdi:zend") 0 (.num w)

theorem zfPfxRawNum (q : ℚ) (d pm : String) :
    zfPfxRaw (.num q) d pm
      = .ok (if q ≠ 0 then d ++ " pressure, " ++ pm ++ tenthsRepr |pyRound1 q| ++ "/hr. " else "") := by
  rcases eq_or_ne q 0 with h | h <;>
    simp [zfPfxRaw, pyNeZero, pyRoundNum1, h, Except.map]

theorem exceptOkIte {ε α : Type} (C : Prop) [Decidable C] (a b : α) :
    (ite C (Except.ok a) (Except.ok b) : Except ε α) = .ok (ite C a b) := by
  split_ifs <;> rfl

/-- On numeric inputs, `zambretti_forecast` never raises and computes exactly
the decision table `zfCellFun`. -/
theorem zf_num_total (trend : String) (p fall w t : ℚ) :
    zambretti_forecast (.num p) (.num fall) (.str trend Option.none) (.num w) (.num t)
      = .ok (zfCellFun trend p fall w t) := by
  dsimp only [zambretti_forecast, zfCellFun, zfCellMk, zfPfxQ, exceptBindOk]
  rw [zfPfxRawNum]
  dsimp only [pyGtNum, pyLtNum, pyMaxAdd, exceptBindOk]
  simp only [decide_eq_true_eq, zero_add, exceptOkIte]

/-- The per-cell baseline alert floor of the decision table (the first
argument of each `max(floor, alert_level + temp_modifier)` in the source). -/
def zfBaseline (trend : String) (p : ℚ) : ℚ :=
  if trend = "rising" then 0
  else if trend = "steady" then (if p > 1020 then 0 else if p > 1010 then 0 else 1)
  else if trend = "falling" then (if p > 1020 then 1 else if p > 1010 then 2 else 3)
  else if trend = "falling_fast" then (if p > 1005 then 3 else if p > 990 then 4 else 5)
  else if trend = "plummeting" then (if p > 1005 then 4 else if p > 990 then 5 else 5)
  else 0

/-- Modelled from the spec: the claimed temperature modifier (+1 above
25 °C, −1 below 5 °C, else 0), used to state what the claim asserts. -/
def claimTempModifier (t : ℚ) : ℚ :=
  if t > 25 then 1 else if t < 5 then -1 else 0

/-- C1 (counterexample): at pressure 1000, trend `falling`, temperature 30 °C
the source returns alert level 3, while the claimed formula
`max(baseline, baseline + temp_modifier)` gives `max(3, 3+1) = 4`. -/
theorem c1_counterexample :
    (zambretti_forecast (.num 1000) (.num 0) (.str ("falling") Option.none) (.num 10)
        (.num 30)).map ZfResult.alert_level = .ok 3
    ∧ max (zfBaseline ("falling") 1000) (zfBaseline ("falling") 1000 + claimTempModifier 30) = 4
    ∧ (3 : ℚ) ≠ 4 := by
  refine ⟨?_, ?_, by norm_num⟩
  · rw [zf_num_total]
    simp [exceptMapOk, zfCellFun, zfCellMk, zfFinish, tempModifier, safe_float]
    norm_num [max_def]
  · simp [zfBaseline, claimTempModifier]
    norm_num [max_def]

/-- C1 (amended): for numeric inputs and each of the five handled trend
buckets, the returned alert level equals `max(baseline_for_cell,
temp_modifier)`: the summand entering each cell's `max` is the running alert
level 0, not the baseline, so a temperature above 25 °C raises the alert
only in cells whose baseline is 0 (to 1), and the alert never drops below
the cell's baseline (in particular the `clear` cells re-clamp to ≥ 0). -/
theorem c1_alert_is_floor_vs_modifier (p fall w t : ℚ) (trend : String)
    (h : trend = "rising" ∨ trend = "steady" ∨ trend = "falling" ∨
         trend = "falling_fast" ∨ trend = "plummeting") :
    ∃ r, zambretti_forecast (.num p) (.num fall) (.str trend Option.none) (.num w) (.num t)
        = .ok r
      ∧ r.alert_level = max (zfBaseline trend p) (tempModifier (.num t)) := by
  refine ⟨zfCellFun trend p fall w t, zf_num_total trend p fall w t, ?_⟩
  rcases h with rfl | rfl | rfl | rfl | rfl <;>
    simp only [zfCellFun, zfCellMk, zfFinish, zfBaseline] <;>
    norm_num <;> split_ifs <;> rfl

/-- Witness for C1 (amended) at trend `falling`, pressure 1000,
temperature 30. -/
theorem c1_alert_is_floor_vs_modifier_witness :
    ∃ r, zambretti_forecast (.num 1000) (.num 0) (.str ("falling") Option.none) (.num 10)
        (.num 30) = .ok r
      ∧ r.alert_level = max (zfBaseline ("falling") 1000) (tempModifier (.num 30)) :=
  c1_alert_is_floor_vs_modifier 1000 0 10 30 ("falling") (Or.inr (Or.inr (Or.inl rfl)))

/-- C9 (counterexample): `rising_fast` is one of the six trend buckets, but
`zambretti_forecast` has no branch for it: the result keeps the defaults —
no cell sentence at all (empty forecast at `fall = 0`), the placeholder icon
`mdi:zend` (not an `ICON_MAPPING` entry), alert 0 and the wind unchanged —
so the claimed 6×3 = 18-cell table does not exist in the code (and the
function has no `normal_pressure` parameter; its thresholds are fixed). -/
theorem c9_counterexample :
    zambretti_forecast (.num 990) (.num 0) (.str ("rising_fast") Option.none) (.num 10)
        (.num 10)
      = .ok { forecast := "", icon := "mdi:zend", alert_level := 0,
              estimated_wind_speed := .num 10, estimated_max_wind_speed := 12 }
    ∧ ("mdi:zend" ∉ ICON_MAPPING.map Prod.fst) := by
  refine ⟨?_, by decide⟩
  rw [zf_num_total]
  simp [zfCellFun, zfCellMk, zfFinish, zfPfxQ, tempModifier, safe_float, pyRound, pyRound1]
  norm_num [max_def]

/-- C9 (amended): on numeric inputs the synthesizer realises exactly the
15-cell decision table `zfCellFun`: five trend buckets (`rising_fast` falls
through to the defaults), pressure classified against the fixed thresholds
1020/1010 (rising/steady/falling) and 1005/990 (falling_fast/plummeting),
each cell returning its fixed sentence, icon, baseline alert combined with
the temperature modifier, and wind formula `max(floor, wind ± offset)`, with
the snow sub-clause when temperature < 0 in `falling`'s lowest band,
`falling_fast`'s middle band and `plummeting`'s highest band. -/
theorem c9_decision_table (trend : String) (p fall w t : ℚ) :
    zambretti_forecast (.num p) (.num fall) (.str trend Option.none) (.num w) (.num t)
      = .ok (zfCellFun trend p fall w t) :=
  zf_num_total trend p fall w t

/-- `sensor.Zambretti.async_update` lines 676–685: the estimated-max-wind
ratchet applied to the running alert level. -/
def wind_alert_ratchet (alert : ℚ) (estimated_max_wind_speed : PyVal) : ℚ :=
  if safe_float estimated_max_wind_speed 0 > 50 then (if alert ≤ 5 then 51/10 else alert)
  else if safe_float estimated_max_wind_speed 0 > 40 then (if alert ≤ 4 then 41/10 else alert)
  else if safe_float estimated_max_wind_speed 0 > 30 then (if alert ≤ 3 then 31/10 else alert)
  else if safe_float estimated_max_wind_speed 0 > 25 then (if alert ≤ 2 then 22/10 else alert)
  else if safe_float estimated_max_wind_speed 0 > 20 then (if alert ≤ 2 then 21/10 else alert)
  else alert  -- source decimals: 5.1, 4.1, 3.1, 2.2, 2.1

/-- `sensor.Zambretti.async_update`: the alert level starts at 0 (line 334)
and is maxed with the temperature (line 503), fog (line 578) and forecast
(line 592) alert levels before the wind ratchet runs. -/
def aggregate_alert (forecast_alert fog_alert temperature_alert : ℚ)
    (estimated_max_wind_speed : PyVal) : ℚ :=
  wind_alert_ratchet (max (max (max 0 temperature_alert) fog_alert) forecast_alert)
    estimated_max_wind_speed

theorem wind_alert_ratchet_ge (a : ℚ) (v : PyVal) : a ≤ wind_alert_ratchet a v := by
  unfold wind_alert_ratchet
  split_ifs <;> linarith

/-- C2: the aggregation starts from the maximum of the forecast, fog and
temperature alerts; exactly one wind ratchet band applies, only within its
own integer band and never lowering the level; the result never falls below
any of the three inputs; and `aggregate(3,0,0,55) = 5.1`,
`aggregate(5,0,0,10) = 5`. -/
theorem c2_alert_aggregation (f g t emw : ℚ) :
    f ≤ aggregate_alert f g t (.num emw)
    ∧ g ≤ aggregate_alert f g t (.num emw)
    ∧ t ≤ aggregate_alert f g t (.num emw)
    ∧ (emw > 50 → aggregate_alert f g t (.num emw)
        = (if max (max (max 0 t) g) f ≤ 5 then (5.1 : ℚ) else max (max (max 0 t) g) f))
    ∧ (emw ≤ 50 → emw > 40 → aggregate_alert f g t (.num emw)
        = (if max (max (max 0 t) g) f ≤ 4 then (4.1 : ℚ) else max (max (max 0 t) g) f))
    ∧ (emw ≤ 40 → emw > 30 → aggregate_alert f g t (.num emw)
        = (if max (max (max 0 t) g) f ≤ 3 then (3.1 : ℚ) else max (max (max 0 t) g) f))
    ∧ (emw ≤ 30 → emw > 25 → aggregate_alert f g t (.num emw)
        = (if max (max (max 0 t) g) f ≤ 2 then (2.2 : ℚ) else max (max (max 0 t) g) f))
    ∧ (emw ≤ 25 → emw > 20 → aggregate_alert f g t (.num emw)
        = (if max (max (max 0 t) g) f ≤ 2 then (2.1 : ℚ) else max (max (max 0 t) g) f))
    ∧ (emw ≤ 20 → aggregate_alert f g t (.num emw) = max (max (max 0 t) g) f)
    ∧ aggregate_alert 3 0 0 (.num 55) = 5.1
    ∧ aggregate_alert 5 0 0 (.num 10) = 5 := by
  have hbf : f ≤ max (max (max 0 t) g) f := le_max_right _ _
  have hbg : g ≤ max (max (max 0 t) g) f :=
    le_trans (le_max_right _ _) (le_max_left _ _)
  have hbt : t ≤ max (max (max 0 t) g) f :=
    le_trans (le_trans (le_max_right _ _) (le_max_left _ _)) (le_max_left _ _)
  refine ⟨le_trans hbf (wind_alert_ratchet_ge _ _),
          le_trans hbg (wind_alert_ratchet_ge _ _),
          le_trans hbt (wind_alert_ratchet_ge _ _),
          ?_, ?_, ?_, ?_, ?_, ?_,
          by norm_num [aggregate_alert, wind_alert_ratchet, safe_float, max_def],
          by norm_num [aggregate_alert, wind_alert_ratchet, safe_float, max_def]⟩ <;>
    · intros
      unfold aggregate_alert wind_alert_ratchet safe_float
      split_ifs <;> first | rfl | linarith

/-- The slope classification of
`pressure_analysis.determine_pressure_trend` (lines 121–132). -/
def classify_trend (slope : ℚ) : String :=
  if slope ≥ 2 then "rising_fast"
  else if slope ≥ 1/2 then "rising"        -- 0.5
  else if slope > -(1/2) then "steady"     -- -0.5
  else if slope > -2 then "falling"
  else if slope > -4 then "falling_fast"
  else "plummeting"

/-- A recorder sample: (`last_changed` as epoch seconds, raw state value). -/
abbrev PSample := ℚ × PyVal

/-- The 15-minute grid slot of a timestamp:
`last_changed.replace(minute=(minute//15)*15, second=0, microsecond=0)`
as epoch seconds. -/
def roundSlotTime (t : ℚ) : ℚ := (⌊t / 900⌋ : ℤ) * 900

/-- Stable insertion (by timestamp) — Python's `sorted` is stable. -/
def insertByTime (s : PSample) : List PSample → List PSample
  | [] => [s]
  | a :: rest => if a.1 < s.1 then a :: insertByTime s rest else s :: a :: rest

/-- Python `sorted(data, key=lambda state: state.last_changed)`. -/
def sortByTime : List PSample → List PSample
  | [] => []
  | x :: xs => insertByTime x (sortByTime xs)

/-- The per-interval selection loop of `determine_pressure_trend`
(lines 54–66): keep the first sample of each new 15-minute slot, recording
`(rounded timestamp, safe_float(state))`, and stop once
`len(pressure_values) >= num_intervals` (checked after every iteration). -/
def resampleGo : List PSample → Option ℚ → List (ℚ × ℚ) → ℚ → List (ℚ × ℚ)
  | [], _, acc, _ => acc
  | s :: rest, last_used, acc, lim =>
    let rt := roundSlotTime s.1
    if (match last_used with | Option.none => true | some lu => decide (rt > lu)) then
      let acc2 := acc ++ [(rt, safe_float s.2 0)]
      if (acc2.length : ℚ) ≥ lim then acc2 else resampleGo rest (some rt) acc2 lim
    else
      if (acc.length : ℚ) ≥ lim then acc else resampleGo rest last_used acc lim

/-- Resampling of the raw history onto the 15-minute grid. -/
def resample (l : List PSample) (lim : ℚ) : List (ℚ × ℚ) :=
  resampleGo (sortByTime l) Option.none [] lim

/-- `np.polyfit(x, y, 1)`: ordinary-least-squares slope and intercept in
closed form. -/
def olsSlopeIntercept (xs ys : List ℚ) : ℚ × ℚ :=
  let n : ℚ := xs.length
  let sx := xs.sum
  let sy := ys.sum
  let sxx := (xs.map (fun x => x * x)).sum
  let sxy := ((xs.zip ys).map (fun pr => pr.1 * pr.2)).sum
  let slope := (n * sxy - sx * sy) / (n * sxx - sx * sx)
  (slope, (sy - slope * sx) / n)

/-- `np.mean(np.abs(y - fitted_y))`. -/
def meanAbsDeviation (xs ys : List ℚ) (slope intercept : ℚ) : ℚ :=
  (((xs.zip ys).map (fun pr => |pr.2 - (slope * pr.1 + intercept)|)).sum) / xs.length

/-- Minimum of a non-empty value list (`min(pressure_values)`). -/
def listMinD : List ℚ → ℚ → ℚ
  | [], d => d
  | x :: xs, _ => xs.foldl min x

/-- Maximum of a non-empty value list (`max(pressure_values)`). -/
def listMaxD : List ℚ → ℚ → ℚ
  | [], d => d
  | x :: xs, _ => xs.foldl max x

/-- The value returned by `determine_pressure_trend`: the source returns a
3-tuple `(trend, value, flag)` on the early paths ("learning" or the
no-data "steady") and a 6-tuple
`(trend, slope, analysis, count, method, avg_deviation)` after a fit. -/
inductive TrendOutcome where
  | short (trend : String) (value : ℚ) (flag : ℚ)
  | fitted (trend : String) (slope : ℚ) (analysis : String) (count : ℕ)
      (method : String) (avg_deviation : ℚ)
deriving DecidableEq, Repr

/-- `pressure_analysis.determine_pressure_trend`.  The recorder fetch is
abstracted as `history` (`Option.none` models "no history data or entity
missing", i.e. the falsy/`not in` test of line 37) and `current_state`
models `hass.states.get(entity_id)`.  Indexing `pressure_values[0]` on an
empty resampled series (line 69) raises `IndexError`. -/
def determine_pressure_trend (history : Option (List PSample))
    (current_state : Option PyVal) (pressure_history_hours : PyVal) :
    Except String TrendOutcome :=
  let hours := safe_float pressure_history_hours 0
  let num_intervals : ℚ := (60 / 15) * hours
  match history with
  | Option.none =>
    match current_state with
    | some c => .ok (.short ("learning") (safe_float c 0) 0)
    | Option.none => .ok (.short ("steady") 0 0)  -- no data at all
  | some raw =>
    let vals := resample raw num_intervals
    match vals with
    | [] => .error ("IndexError")  -- `pressure_values[0]` with no values
    | v0 :: rest =>
      if (v0 :: rest).length < 2 then .ok (.short ("learning") v0.2 1)
      else
        let ts := (v0 :: rest).map Prod.fst
        let ys := (v0 :: rest).map Prod.snd
        let xs := ts.map (fun tt => tt - v0.1)
        let fit := olsSlopeIntercept xs ys
        let avg_deviation := meanAbsDeviation xs ys fit.1 fit.2
        let n := (v0 :: rest).length
        let res :=
          if avg_deviation > 3/2 then  -- MAX_DEVIATION = 1.5
            let min_p := listMinD ys 0
            let max_p := listMaxD ys 0
            let min_index := List.indexOf min_p ys
            let max_index := List.indexOf max_p ys
            let last_p := ys.getLastD v0.2
            let time_to_min : ℚ := ((n : ℚ) - min_index) * (15 / 60)
            let time_to_max : ℚ := ((n : ℚ) - max_index) * (15 / 60)
            let slope_to_min := if time_to_min > 0 then (last_p - min_p) / time_to_min else 0
            let slope_to_max := if time_to_max > 0 then (last_p - max_p) / time_to_max else 0
            ((if |slope_to_min| > |slope_to_max| then slope_to_min else slope_to_max), "U-curve")
          else (fit.1 * 3600, "Straight-line")
        let slope := res.1
        let trend := classify_trend slope
        let pm := if pyRound1 slope > 0 then "+" else if pyRound2 slope < 0 then "-" else "±"
        let analysis := pyTitle (trend.replace ("_") (" ")) ++ " pressure, " ++ pm
          ++ tenthsRepr |pyRound1 slope| ++ "/hr"
        .ok (.fitted trend slope analysis raw.length res.2 avg_deviation)

/-- C3: the six-bucket classification of the trend fitter uses exactly the
breakpoints ≥2.0 rising_fast, ≥0.5 rising, >−0.5 steady, >−2.0 falling,
>−4.0 falling_fast, else plummeting; in particular a rate of exactly −0.5
is classified falling, not steady. -/
theorem c3_trend_breakpoints (r : ℚ) :
    (r ≥ 2 → classify_trend r = "rising_fast")
    ∧ (r ≥ 1/2 → r < 2 → classify_trend r = "rising")
    ∧ (r > -(1/2) → r < 1/2 → classify_trend r = "steady")
    ∧ (r > -2 → r ≤ -(1/2) → classify_trend r = "falling")
    ∧ (r > -4 → r ≤ -2 → classify_trend r = "falling_fast")
    ∧ (r ≤ -4 → classify_trend r = "plummeting")
    ∧ classify_trend (-(1/2)) = "falling" := by
  unfold classify_trend
  refine ⟨?_, ?_, ?_, ?_, ?_, ?_, by norm_num⟩ <;>
    intros <;> split_ifs <;> first | rfl | linarith

/-- C4 (counterexample): with no recorder history at all and no current
state, `determine_pressure_trend` falls back to the numeric-shaped tuple
`("steady", 0, 0)` (line 42), not the `learning` sentinel. -/
theorem c4_counterexample :
    determine_pressure_trend Option.none Option.none (.num 3) = .ok (.short ("steady") 0 0)
    ∧ "steady" ≠ "learning" := by
  exact ⟨rfl, by decide⟩

/-- C4 (amended): with fewer than 2 usable resampled points the trend
fitter returns the `learning` sentinel when history is missing but a
current state exists, or when exactly one usable point survives
resampling; but with no history and no current state it returns
`("steady", 0, 0)`, and with a present history that resamples to zero
points it raises `IndexError`. -/
theorem c4_learning_paths (raw : List PSample) (cur : Option PyVal) (h : PyVal) :
    (∀ c, determine_pressure_trend Option.none (some c) h
        = .ok (.short ("learning") (safe_float c 0) 0))
    ∧ determine_pressure_trend Option.none Option.none h = .ok (.short ("steady") 0 0)
    ∧ (∀ v0, resample raw ((60 / 15) * safe_float h 0) = [v0] →
        determine_pressure_trend (some raw) cur h = .ok (.short ("learning") v0.2 1))
    ∧ (resample raw ((60 / 15) * safe_float h 0) = [] →
        determine_pressure_trend (some raw) cur h = .error ("IndexError")) := by
  refine ⟨fun c => rfl, rfl, fun v0 hres => ?_, fun hres => ?_⟩ <;>
    simp [determine_pressure_trend, hres]

/-- `low_estimator._clamp_deg`: Python `deg % 360.0`. -/
def clampDeg (deg : ℚ) : ℚ := deg - 360 * ⌊deg / 360⌋

/-- `low_estimator._compass_8`: `int((deg + 22.5) // 45) % 8` into the
8-point rose. -/
def compass8 (deg : ℚ) : String :=
  let d := clampDeg deg
  let idx := ((⌊(d + 45/2) / 45⌋ : ℤ) % 8).toNat  -- 22.5
  (["N", "NE", "E", "SE", "S", "SW", "W", "NW"].getD idx ("N"))

/-- `low_estimator._wind_delta_knots`: last − first of the valid floats of
the history; `None` when fewer than 2 remain (or no history). -/
def windDeltaKnots (history : Option (List PyVal)) : Option ℚ :=
  let vals := (history.getD []).filterMap lowSafeFloat
  match vals with
  | [] => Option.none
  | [_] => Option.none
  | a :: rest => some ((a :: rest).getLastD 0 - a)

/-- The score table of `low_estimator._combine_confidence`
(`.get(p, 0)` sends unknown labels to 0). -/
def confScore (s : String) : ℕ :=
  if s = "low" then 0 else if s = "medium" then 1 else if s = "high" then 2 else 0

/-- The inverse table of `_combine_confidence`. -/
def invScore (n : ℕ) : String :=
  if n = 0 then "low" else if n = 1 then "medium" else "high"

/-- `low_estimator._combine_confidence`: the minimum of the three parts. -/
def combineConfidence (a b c : String) : String :=
  invScore (min (confScore a) (min (confScore b) (confScore c)))

/-- The direction partial confidence of `estimate_low_properties`
(lines 463–475): `low` when the wind direction is missing, else `medium`. -/
def confDirOf (wind_from_deg : PyVal) : String :=
  match lowSafeFloat wind_from_deg with
  | Option.none => "low"
  | some _ => "medium"

/-- The distance partial confidence (lines 480–509): `low` when the
pressure slope is missing or the fall rate is below 0.15, else `medium`. -/
def confDistOf (pressure_slope_hpa_per_hr : PyVal) : String :=
  match lowSafeFloat pressure_slope_hpa_per_hr with
  | Option.none => "low"
  | some ps => if max 0 (-ps) ≥ 3/20 then "medium" else "low"  -- 0.15

/-- The wind partial confidence (lines 517–550): `low` when no wind delta
could be computed, else `medium`. -/
def confWindOf (history : Option (List PyVal)) : String :=
  match windDeltaKnots history with
  | Option.none => "low"
  | some _ => "medium"

/-- `low_estimator._DISTANCE_ORDER`. -/
def DISTANCE_ORDER : List String :=
  ["Far", "Distant", "Approaching", "Near", "Very near", "Imminent"]

/-- `low_estimator._DISTANCE_RANGE` with the `.get(…, "Unknown")` default. -/
def distanceRange (c : String) : String :=
  if c = "Far" then "1000–2000 km"
  else if c = "Distant" then "700–1000 km"
  else if c = "Approaching" then "400–700 km"
  else if c = "Near" then "200–400 km"
  else if c = "Very near" then "80–200 km"
  else if c = "Imminent" then "0–80 km"
  else "Unknown"

/-- `low_estimator._IMPACT_MAP` lookup. -/
def impactMap (c : String) : Option (String × String) :=
  if c = "Far" then some ((">24h", "> 24 hours"))
  else if c = "Distant" then some (("12–24h", "12–24 hours"))
  else if c = "Approaching" then some (("6–12h", "6–12 hours"))
  else if c = "Near" then some (("3–6h", "3–6 hours"))
  else if c = "Very near" then some (("<3h", "< 3 hours"))
  else if c = "Imminent" then some (("<3h", "< 3 hours"))
  else Option.none

/-- `low_estimator._shift_closer`. -/
def shiftCloser (distance_class : String) (steps : ℕ) : String :=
  match DISTANCE_ORDER.findIdx? (fun s => s = distance_class) with
  | Option.none => distance_class
  | some i => DISTANCE_ORDER.getD (min (DISTANCE_ORDER.length - 1) (i + steps)) distance_class

/-- `low_estimator._derive_weather_trend`. -/
def deriveWeatherTrend (distance_class wind_trend : String) : String :=
  let base :=
    if distance_class = "Far" then "Stable"
    else if distance_class = "Distant" then "Stable"
    else if distance_class = "Approaching" then "Deteriorating"
    else if distance_class = "Near" then "Deteriorating"
    else if distance_class = "Very near" then "Rapidly deteriorating"
    else if distance_class = "Imminent" then "Rapidly deteriorating"
    else "Stable"
  if pyInStr ("Decreased") wind_trend
      ∧ (distance_class = "Far" ∨ distance_class = "Distant" ∨ distance_class = "Approaching")
    then "Improving"
  else if pyInStr ("Increasing a lot") wind_trend then
    if base = "Stable" then "Deteriorating"
    else if base = "Deteriorating" then "Rapidly deteriorating"
    else base
  else base

/-- `low_estimator._derive_wind_rotation_likely`. -/
def deriveWindRotationLikely (distance_class : String) (wind_dir_delta_deg : Option ℚ) : String :=
  match wind_dir_delta_deg with
  | Option.none => "Unknown"
  | some d =>
    if |d| < 3 then "No significant change"
    else if |d| < 10 then (if d > 0 then "Slight veering" else "Slight backing")
    else
      let nearish := distance_class = "Approaching" ∨ distance_class = "Near"
        ∨ distance_class = "Very near" ∨ distance_class = "Imminent"
      if d > 0 then (if nearish then "Veering likely" else "Veering (observed)")
      else (if nearish then "Backing likely" else "Backing (observed)")

/-- `low_estimator._derive_frontal_zone`. -/
def deriveFrontalZone (distance_class : String) (pressure_slope : Option ℚ)
    (wind_trend : String) : Bool :=
  if ¬ (distance_class = "Near" ∨ distance_class = "Very near" ∨ distance_class = "Imminent")
    then false
  else match pressure_slope with
    | Option.none => false
    | some ps =>
      if ps > -(1/2) then false  -- -0.5
      else if ¬ pyInStr ("Increasing") wind_trend then false
      else true

/-- `low_estimator._derive_anchoring_risk`. -/
def deriveAnchoringRisk (distance_class wind_trend : String) : String :=
  if distance_class = "Very near" ∨ distance_class = "Imminent" then "Unsafe"
  else if distance_class = "Near" then
    (if pyInStr ("Increasing") wind_trend then "Unsafe" else "Caution")
  else if distance_class = "Approaching" then
    (if pyInStr ("Increasing") wind_trend ∨ pyInStr ("Stable") wind_trend then "Caution" else "Safe")
  else "Safe"

/-- The `COMPASS_NAMES` lookup of
`low_estimator._derive_relative_position_and_movement`. -/
def compassName (comp : String) : String :=
  if comp = "N" then "North"
  else if comp = "NE" then "North-East"
  else if comp = "E" then "East"
  else if comp = "SE" then "South-East"
  else if comp = "S" then "South"
  else if comp = "SW" then "South-West"
  else if comp = "W" then "West"
  else if comp = "NW" then "North-West"
  else "Unknown"

/-- `low_estimator._derive_relative_position_and_movement`, returning
(relative position, movement, impact-window status); thresholds
FALLING = −0.05, RISING = +0.05, FLAT = 0.03. -/
def deriveRelPosMove (low_compass_8 : String) (pressure_slope : Option ℚ)
    (distance_class wind_trend : String) : String × String × String :=
  let pos := compassName (pyStrip (pyUpper low_compass_8))
  match pressure_slope with
  | Option.none => (pos, "Unknown", "Unknown")
  | some ps =>
    let nearish := distance_class = "Near" ∨ distance_class = "Very near"
      ∨ distance_class = "Imminent"
    if nearish ∧ |ps| ≤ 3/100 then (pos, "Passing", "Now")
    else if ps ≥ 1/20 ∨ wind_trend = "Decreased a lot" ∨ wind_trend = "Decreased" then
      (pos, "Moving away", "Passed")
    else if ps ≤ -(1/20) then (pos, "Approaching", "Future")
    else (pos, "Unknown", "Unknown")

/-- Python `"%.0f"`-style formatting (`f"{x:.0f}"`). -/
def fmtF0 (q : ℚ) : String := toString (pyRound q)

/-- Python `f"{x:.1f}"` formatting. -/
def fmtF1 (q : ℚ) : String :=
  let m := (pyRound (10 * q)).natAbs
  let a := m / 10
  let b := m % 10
  (if q < 0 then "-" else "") ++ s!"{a}.{b}"

/-- Two-digit padding for the fractional part of `"%.2f"`. -/
def intPad2 (k : ℕ) : String := if k < 10 then "0" ++ toString k else toString k

/-- Python `f"{x:.2f}"` formatting. -/
def fmtF2 (q : ℚ) : String :=
  let m := (pyRound (100 * q)).natAbs
  (if q < 0 then "-" else "") ++ toString (m / 100) ++ "." ++ intPad2 (m % 100)

/-- `" ".join(parts)` where the parts may contain `None` (`wind_outlook`):
joining a list containing `None` raises `TypeError`. -/
def pyJoinSpace (parts : List (Option String)) : Except String String :=
  if parts.all Option.isSome then .ok (String.intercalate (" ") (parts.filterMap id))
  else .error ("TypeError")

/-- The frozen dataclass `low_estimator.LowEstimate`. -/
structure LowEstimate where
  low_bearing_deg : ℚ
  low_bearing_compass : String
  distance_class : String
  distance_km_range : String
  wind_trend : String
  wind_delta_kn : Option ℚ
  confidence : String
  hemisphere : String
  pressure_slope_hpa_per_hr : Option ℚ
  weather_trend : String
  time_to_impact : String
  time_to_impact_range : String
  wind_rotation_likely : String
  wind_dir_delta_deg : Option ℚ
  frontal_zone : Bool
  anchoring_risk : String
  low_relative_position : String
  low_movement : String
  impact_window_status : String
  summary : String
deriving DecidableEq, Repr

/-- `low_estimator.estimate_low_properties`: the pure heuristic estimator.
`wind_speed_history_kn` is the raw history sequence (`Option.none` models
passing `None`).  The only runtime error path is `" ".join(parts)` when
`parts` contains the unset `wind_outlook` (`None`), which happens whenever
the current wind speed is known but `wind_outlook` was never assigned
(no wind delta, or a pressure/wind-trend combination no branch covers). -/
def estimate_low_properties (wind_from_deg pressure_slope_hpa_per_hr wind_speed_kn : PyVal)
    (wind_speed_history_kn : Option (List PyVal)) (wind_dir_delta_deg : PyVal)
    (hemisphere : String) : Except String LowEstimate :=
  let wdir := lowSafeFloat wind_from_deg
  let pslope := lowSafeFloat pressure_slope_hpa_per_hr
  let wspd := lowSafeFloat wind_speed_kn
  let wdir_delta := lowSafeFloat wind_dir_delta_deg
  -- Core 1) direction to the low (Buys-Ballot; hemisphere flips the sign)
  let low_deg : ℚ :=
    match wdir with
    | Option.none => 0
    | some w =>
      if pyStartsWith (pyLower hemisphere) ("s") then clampDeg (w - 90) else clampDeg (w + 90)
  let low_compass :=
    match wdir with
    | Option.none => "N"
    | some _ => compass8 low_deg
  let conf_dir := confDirOf wind_from_deg
  -- Core 2) distance class from the pressure fall rate (+ wind-speed nudge)
  let fall_rate : Option ℚ := pslope.map (fun ps => max 0 (-ps))
  let distance_class :=
    match fall_rate with
    | Option.none => "Unknown"
    | some fr =>
      let dc0 :=
        if fr < 1/20 then "Far"               -- 0.05
        else if fr < 3/20 then "Distant"      -- 0.15
        else if fr < 7/20 then "Approaching"  -- 0.35
        else if fr < 7/10 then "Near"         -- 0.70
        else if fr < 3/2 then "Very near"     -- 1.50
        else "Imminent"
      match wspd with
      | some w =>
        if fr ≥ 3/20 then
          (if w ≥ 30 then shiftCloser dc0 2 else if w ≥ 20 then shiftCloser dc0 1 else dc0)
        else dc0
      | Option.none => dc0
  let km_range :=
    match fall_rate with
    | Option.none => "Unknown"
    | some _ => distanceRange distance_class
  let conf_dist := confDistOf pressure_slope_hpa_per_hr
  -- Core 3) wind trend from the history delta
  let delta_kn := windDeltaKnots wind_speed_history_kn
  let wind_trend :=
    match delta_kn with
    | Option.none => "Stable/unknown"
    | some d =>
      if d ≤ -5 then "Decreased a lot"
      else if d ≤ -2 then "Decreased"
      else if d < 2 then "Stable"
      else if d < 5 then "Increased"
      else "Increased a lot"
  let wind_outlook : Option String :=
    match delta_kn with
    | Option.none => Option.none
    | some d =>
      match pslope with
      | some ps =>
        if ps < -(1/2) then
          (if wind_trend = "Stable" ∨ wind_trend = "Stable/unknown" then
            some ("Wind likely to increase as pressure continues to fall.")
          else if wind_trend = "Increased" ∨ wind_trend = "Increased a lot" then
            some ("Wind likely to increase further as pressure continues to fall.")
          else Option.none)
        else if -(1/2) ≤ ps ∧ ps ≤ 1/2 then
          (if d < 1 then some ("Wind likely to be stable.")
           else some ("Wind likely to be almost stable."))
        else  -- pslope > 0.5
          (if wind_trend = "Stable" ∨ wind_trend = "Stable/unknown"
              ∨ wind_trend = "Decreased" ∨ wind_trend = "Decreased a lot" then
            some ("Wind likely to decrease as pressure continues to rise.")
          else Option.none)
      | Option.none => some ("Wind confusing, keep an eye out.")
  let conf_wind := confWindOf wind_speed_history_kn
  let confidence := combineConfidence conf_dir conf_dist conf_wind
  -- Added derived signals
  let weather_trend0 := deriveWeatherTrend distance_class wind_trend
  let rpm := deriveRelPosMove low_compass pslope distance_class wind_trend
  let low_relative_position := rpm.1
  let low_movement := rpm.2.1
  let impact_window_status := rpm.2.2
  let tti :=
    if impact_window_status = "Passed" then
      (("Passed", "already passed",
        if weather_trend0 = "Deteriorating" ∨ weather_trend0 = "Rapidly deteriorating"
          then "Improving" else weather_trend0))
    else if impact_window_status = "Now" then (("Now", "now / next 1–2 hours", weather_trend0))
    else
      match impactMap distance_class with
      | Option.none => (("Unknown", "Unknown", weather_trend0))
      | some pr => ((pr.1, pr.2, weather_trend0))
  let time_to_impact := tti.1
  let time_to_impact_range := tti.2.1
  let weather_trend := tti.2.2
  let wind_rotation_likely := deriveWindRotationLikely distance_class wdir_delta
  let frontal_zone := deriveFrontalZone distance_class pslope wind_trend
  let anchoring_risk := deriveAnchoringRisk distance_class wind_trend
  -- Human-readable summary (lines 586–658); `parts.append(wind_outlook)`
  -- can put `None` into the list
  let parts : List (Option String) :=
    [some ("Low to the " ++ pyLower low_relative_position ++ " (" ++ fmtF0 low_deg ++ "°), "),
     some (if distance_class ≠ "Unknown"
       then "distance " ++ km_range ++ ", " ++ pyLower low_movement ++ "."
       else "Distance: unknown."),
     some (if impact_window_status = "Passed" then
         "Main weather from this system has passed, conditions are improving."
       else if impact_window_status = "Now" then
         "Main impact from this system is occurring now or is imminent, expect the worst conditions in the next 1–2 hours."
       else if impact_window_status = "Future" then
         (if time_to_impact_range = "< 3 hours" ∨ time_to_impact_range = "3–6 hours"
             ∨ time_to_impact_range = "6–12 hours" then
           "Weather is deteriorating, main impact from this system is expected within "
             ++ time_to_impact_range ++ ". Prepare for worsening conditions."
         else
           "A low pressure system is present but still far away. No significant impact is expected in the next 12–24 hours.")
       else
         "Weather situation is unclear. Signals are mixed; monitor pressure and wind trends closely.")]
    ++ (match pslope with
        | Option.none => []
        | some ps =>
          [some (if |ps| < 1/10 then "Pressure: roughly steady."  -- 0.10
            else if ps < 0 then "Pressure: falling (" ++ fmtF2 ps ++ " hPa/hr)."
            else "Pressure: rising (+" ++ fmtF2 ps ++ " hPa/hr).")])
    ++ (match wspd with
        | Option.none => [some ("Current wind: unknown.")]
        | some w =>
          [some ("Current wind: " ++ fmtF0 w ++ " kn"
            ++ (match delta_kn with
                | Option.none => " (" ++ pyLower wind_trend ++ ")."
                | some d => ", " ++ pyLower wind_trend ++ " (Δ "
                    ++ (if d ≥ 0 then "+" else "") ++ fmtF1 d ++ " kn).")),
           wind_outlook])
    ++ (if wind_rotation_likely ≠ "" then
          [some (if ¬ (wind_rotation_likely = "Uncertain" ∨ wind_rotation_likely = "Unknown")
            then "Likely direction change: " ++ pyLower wind_rotation_likely ++ "."
            else "Likely direction change: uncertain.")]
        else [])
    ++ (if frontal_zone then [some ("Frontal zone likely.")] else [])
    ++ (if anchoring_risk ≠ "" then [some ("Anchoring risk: " ++ anchoring_risk ++ ".")] else [])
  (pyJoinSpace parts).map (fun summary =>
    { low_bearing_deg := pyRound1 low_deg
      low_bearing_compass := low_compass
      distance_class := distance_class
      distance_km_range := km_range
      wind_trend := wind_trend
      wind_delta_kn := delta_kn.map pyRound2
      confidence := confidence
      hemisphere := hemisphere
      pressure_slope_hpa_per_hr := pslope.map pyRound3
      weather_trend := weather_trend
      time_to_impact := time_to_impact
      time_to_impact_range := time_to_impact_range
      wind_rotation_likely := wind_rotation_likely
      wind_dir_delta_deg := wdir_delta.map pyRound1
      frontal_zone := frontal_zone
      anchoring_risk := anchoring_risk
      low_relative_position := low_relative_position
      low_movement := low_movement
      impact_window_status := impact_window_status
      summary := pyStrip summary })

theorem exceptMapOkInv {ε α β : Type} (x : Except ε α) (f : α → β) (b : β)
    (h : Except.map f x = .ok b) : ∃ a, x = .ok a ∧ b = f a := by
  cases x with
  | error e => simp [Except.map] at h
  | ok a =>
    refine ⟨a, rfl, ?_⟩
    simpa [Except.map] using h.symm

theorem confScore_le_two (s : String) : confScore s ≤ 2 := by
  unfold confScore
  split_ifs <;> norm_num

theorem combineConfidence_score (a b c : String) :
    confScore (combineConfidence a b c)
      = min (confScore a) (min (confScore b) (confScore c)) := by
  unfold combineConfidence invScore
  obtain ⟨m, hm⟩ : ∃ m, min (confScore a) (min (confScore b) (confScore c)) = m := ⟨_, rfl⟩
  have h2 : m ≤ 2 := by
    rw [← hm]
    exact le_trans (Nat.min_le_left _ _) (confScore_le_two a)
  rw [hm]
  interval_cases m <;> rfl

theorem combineConfidence_low (a b c : String)
    (h : a = "low" ∨ b = "low" ∨ c = "low") : combineConfidence a b c = "low" := by
  unfold combineConfidence
  have h0 : min (confScore a) (min (confScore b) (confScore c)) = 0 := by
    rcases h with rfl | rfl | rfl <;> simp [confScore]
  rw [h0]
  rfl

/-- C5: whenever `estimate_low_properties` returns, the overall confidence
is the minimum (under low < medium < high) of the three partial confidences
(direction, distance, wind), and any `low` partial forces a `low` overall
confidence. -/
theorem c5_confidence_is_min (wdir ps wspd wdelta : PyVal) (hist : Option (List PyVal))
    (hemi : String) (est : LowEstimate)
    (h : estimate_low_properties wdir ps wspd hist wdelta hemi = .ok est) :
    confScore est.confidence
      = min (confScore (confDirOf wdir))
          (min (confScore (confDistOf ps)) (confScore (confWindOf hist)))
    ∧ ((confDirOf wdir = "low" ∨ confDistOf ps = "low" ∨ confWindOf hist = "low") →
        est.confidence = "low") := by
  have hconf : est.confidence
      = combineConfidence (confDirOf wdir) (confDistOf ps) (confWindOf hist) := by
    simp only [estimate_low_properties] at h
    obtain ⟨s, -, rfl⟩ := exceptMapOkInv _ _ _ h
    rfl
  rw [hconf]
  exact ⟨combineConfidence_score _ _ _, combineConfidence_low _ _ _⟩

/-- Evaluation of the end-to-end scenario wind_from = 270°, hemisphere
`north`, pressure slope −0.8 hPa/hr (bearing 270 + 90 = 360 ≡ 0 → `N`;
fall rate 0.8 lies in the 0.70 ≤ r < 1.50 band, the fifth distance class). -/
theorem lowScenario_eval :
    (estimate_low_properties (.num 270) (.num (-(4/5))) .none .none .none ("north")).map
        LowEstimate.low_bearing_deg = .ok 0
    ∧ (estimate_low_properties (.num 270) (.num (-(4/5))) .none .none .none ("north")).map
        LowEstimate.low_bearing_compass = .ok ("N")
    ∧ (estimate_low_properties (.num 270) (.num (-(4/5))) .none .none .none ("north")).map
        LowEstimate.distance_class = .ok ("Very near")
    ∧ (estimate_low_properties (.num 270) (.num (-(4/5))) .none .none .none ("north")).map
        LowEstimate.distance_km_range = .ok ("80–200 km")
    ∧ (estimate_low_properties (.num 270) (.num (-(4/5))) .none .none .none ("north")).map
        LowEstimate.confidence = .ok ("low") := by
  have hmax : max (0:ℚ) (-(-(4/5))) = 4/5 := by norm_num
  have hc1 : ¬((4:ℚ)/5 < 20⁻¹) := by norm_num
  have hc2 : ¬((4:ℚ)/5 < 3/20) := by norm_num
  have hc3 : ¬((4:ℚ)/5 < 7/20) := by norm_num
  have hc4 : ¬((4:ℚ)/5 < 7/10) := by norm_num
  have hc5 : ((4:ℚ)/5 < 3/2) := by norm_num
  have hc6 : ((4:ℚ)/5 ≥ 3/20) := by norm_num
  have hc7 : ((20:ℚ)⁻¹ ≤ 4/5) := by norm_num
  have hav : |(4:ℚ)/5| = 4/5 := abs_of_pos (by norm_num)
  have hd1 : ¬((4:ℚ)/5 ≤ 3/100) := by norm_num
  have hd2 : ¬((4:ℚ)/5 < 10⁻¹) := by norm_num
  have hcl : clampDeg (270 + 90) = 0 := by norm_num [clampDeg]
  have hcomp : compass8 0 = "N" := by
    simp [compass8, clampDeg]
    norm_num
  have hpr : pyRound1 0 = 0 := by norm_num [pyRound1, pyRound]
  have hps1 : ¬((-(4/5) : ℚ) ≥ 20⁻¹) := by norm_num
  have hps2 : ((-(4/5) : ℚ) ≤ -20⁻¹) := by norm_num
  have hps3 : ((-(4/5) : ℚ) < 0) := by norm_num
  have hps4 : ¬((-(4/5) : ℚ) > -2⁻¹) := by norm_num
  refine ⟨?_, ?_, ?_, ?_, ?_⟩ <;>
    simp [estimate_low_properties, lowSafeFloat, windDeltaKnots, confDirOf, confDistOf,
      confWindOf, combineConfidence, confScore, invScore,
      deriveWeatherTrend, deriveRelPosMove, compassName, deriveWindRotationLikely,
      deriveFrontalZone, deriveAnchoringRisk, impactMap, distanceRange, pyInStr, listInfix,
      pyLower, pyUpper, pyStrip, pyStartsWith, pyJoinSpace,
      hmax, hc1, hc2, hc3, hc4, hc5, hc6, hc7, hav, hd1, hd2, hcl, hcomp, hpr,
      hps1, hps2, hps3, hps4, exceptMapOk]

/-- C8 (counterexample): with wind_from = 270°, hemisphere `north` and
pressure slope −0.8, the fall rate 0.8 satisfies 0.70 ≤ 0.8 < 1.50, so the
returned distance class is `Very near` — not `Near` as the claim states. -/
theorem c8_counterexample :
    (estimate_low_properties (.num 270) (.num (-(4/5))) .none .none .none ("north")).map
        LowEstimate.distance_class = .ok ("Very near")
    ∧ "Very near" ≠ "Near" :=
  ⟨lowScenario_eval.2.2.1, by decide⟩

/-- C8 (amended): the scenario returns a low bearing of 0° with compass
`N` (270 + 90 = 360 ≡ 0), and distance class `Very near` with range
80–200 km (fall rate 0.8 lies in [0.70, 1.50)). -/
theorem c8_low_scenario :
    (estimate_low_properties (.num 270) (.num (-(4/5))) .none .none .none ("north")).map
        LowEstimate.low_bearing_deg = .ok 0
    ∧ (estimate_low_properties (.num 270) (.num (-(4/5))) .none .none .none ("north")).map
        LowEstimate.low_bearing_compass = .ok ("N")
    ∧ (estimate_low_properties (.num 270) (.num (-(4/5))) .none .none .none ("north")).map
        LowEstimate.distance_class = .ok ("Very near")
    ∧ (estimate_low_properties (.num 270) (.num (-(4/5))) .none .none .none ("north")).map
        LowEstimate.distance_km_range = .ok ("80–200 km") :=
  ⟨lowScenario_eval.1, lowScenario_eval.2.1, lowScenario_eval.2.2.1,
    lowScenario_eval.2.2.2.1⟩

/-- Witness for C5 at the concrete scenario (direction `medium`, distance
`medium`, wind `low` — overall `low`). -/
theorem c5_confidence_is_min_witness :
    ∃ est, estimate_low_properties (.num 270) (.num (-(4/5))) .none .none .none ("north")
        = .ok est
      ∧ est.confidence = "low" := by
  obtain ⟨est, hest, -⟩ := exceptMapOkInv _ _ _ lowScenario_eval.2.2.2.2
  exact ⟨est, hest,
    (c5_confidence_is_min _ _ _ _ _ _ est hest).2 (Or.inr (Or.inr rfl))⟩

/-- Python `round(x)` on a real (half to even). -/
noncomputable def pyRoundR (x : ℝ) : ℤ :=
  let f := ⌊x⌋
  if x - f < 1/2 then f
  else if x - f > 1/2 then f + 1
  else if f % 2 = 0 then f else f + 1

/-- Python `round(x, 1)` on a real. -/
noncomputable def pyRound1R (x : ℝ) : ℝ := (pyRoundR (10 * x) : ℝ) / 10

/-- Python `a / b` on floats: `ZeroDivisionError` when the denominator is
exactly 0. -/
noncomputable def pyDivR (a b : ℝ) : Except String ℝ :=
  if b = 0 then .error ("ZeroDivisionError") else .ok (a / b)

/-- `math.log(x)`: `ValueError` (math domain error) for `x ≤ 0`. -/
noncomputable def pyLogR (x : ℝ) : Except String ℝ :=
  if x ≤ 0 then .error ("ValueError") else .ok (Real.log x)

/-- The tuple returned by `fog_analysis.determine_fog_chance`:
`(fog_likelihood, fog_dec_probability, dewpoint, temp_diff, alert_level)`. -/
structure FogResult where
  likelihood : String
  dec_probability : ℤ
  dewpoint : ℝ
  temp_diff : ℝ
  alert_level : ℚ

/-- The `fog_area_adjustments` table (`.get(fog_area_type, 1.0)`). -/
def fogAreaAdjustment (fog_area_type : String) : ℚ :=
  if fog_area_type = "frequent_dense_fog" then 3/2      -- 1.5
  else if fog_area_type = "fog_prone" then 6/5          -- 1.2
  else if fog_area_type = "normal" then 1
  else if fog_area_type = "rare_fog" then 7/10          -- 0.7
  else if fog_area_type = "hardly_ever_fog" then 2/5    -- 0.4
  else 1

/-- The numeric pipeline of `determine_fog_chance` after the two early
rejects (lines 40–89): Magnus–Tetens dew point, temperature difference,
base probability, the temperature / wind / area multipliers, and the final
clamp `int(max(0, min(100, p)))` (the clamped value is non-negative, so
`int` truncation is the floor).  Returns (dewpoint, temp_diff, clamped
probability). -/
noncomputable def fogCore (humidity temperature wind_speed : ℚ)
    (fog_area_type : String) : Except String (ℝ × ℝ × ℤ) := do
  let alpha0 ← pyDivR (17.27 * (temperature : ℝ)) (237.7 + (temperature : ℝ))
  let lg ← pyLogR ((humidity : ℝ) / 100)
  let alpha := alpha0 + lg
  let dewpoint ← pyDivR (237.7 * alpha) (17.27 - alpha)
  let temp_diff := pyRound1R ((temperature : ℝ) - dewpoint)
  let p0 : ℝ :=
    if temp_diff > 6 then 0
    else if temp_diff > 3 then max 0 (100 - 15 * temp_diff)
    else max 0 (100 - 8 * temp_diff)
  let p1 : ℝ :=
    if temperature > 35 then 0
    else if temperature > 30 then p0 * 0.1
    else if temperature > 25 then p0 * 0.3
    else if temperature > 20 then p0 * 0.7
    else p0
  let p2 : ℝ :=
    if wind_speed > 20 then p1 * 0.1
    else if wind_speed > 15 then p1 * 0.2
    else if wind_speed > 10 then p1 * 0.4
    else if wind_speed > 5 then p1 * 0.7
    else p1
  let p3 : ℝ := p2 * ((fogAreaAdjustment fog_area_type : ℚ) : ℝ)
  Except.ok ((dewpoint, temp_diff, ⌊max 0 (min 100 p3)⌋))

/-- `fog_analysis.determine_fog_chance(p_humidity, p_temperature,
p_wind_speed, fog_area_type)`.  All inputs pass through `safe_float`, so
the source's `temperature is None` test on line 26 can never fire (the
converted value is a number); only `humidity == 0` selects the
"No valid sensor data." return. -/
noncomputable def determine_fog_chance (p_humidity p_temperature p_wind_speed : PyVal)
    (fog_area_type : String) : Except String FogResult :=
  let humidity := safe_float p_humidity 0
  let temperature := safe_float p_temperature 0
  let wind_speed := safe_float p_wind_speed 0
  if humidity = 0 then
    .ok ⟨"No valid sensor data.", 0, 0, 0, 0⟩
  else if humidity < 20 then
    .ok ⟨"No chance of fog. Air is too dry.", 0, 0, 0, 0⟩
  else
    (fogCore humidity temperature wind_speed fog_area_type).map (fun r =>
      let p := r.2.2
      let fog_likelihood :=
        if p > 90 then "Fog is very likely"
        else if p > 70 then "Fog is possible"
        else if p > 40 then "Fog is unlikely"
        else if p > 10 then "Fog is very unlikely"
        else "No fog expected"
      let fog_dec_probability := pyRound ((p : ℚ) / 10) * 10
      let fl2 :=
        if p > 90 then
          fog_likelihood ++ (if wind_speed > 15 then ", trong winds soon clear it" else " It may persist")
        else if p > 60 then
          fog_likelihood ++ (if wind_speed > 10 then ", ind reduces fog" else " It may persist")
        else fog_likelihood
      let alert_level : ℚ := if p > 90 then 3 else 0
      ⟨fl2, fog_dec_probability, r.1, r.2.1, alert_level⟩)

/-- The internal clamped integer probability of `determine_fog_chance`
(0 on the two early rejects, else the `fogCore` value). -/
noncomputable def fogProbability (p_humidity p_temperature p_wind_speed : PyVal)
    (fog_area_type : String) : Except String ℤ :=
  let humidity := safe_float p_humidity 0
  let temperature := safe_float p_temperature 0
  let wind_speed := safe_float p_wind_speed 0
  if humidity = 0 then .ok 0
  else if humidity < 20 then .ok 0
  else (fogCore humidity temperature wind_speed fog_area_type).map (fun r => r.2.2)

theorem fogCoreEval_h100_t0 :
    fogCore 100 0 0 ("normal") = .ok ((0, 0, 100)) := by
  have h1 : pyDivR (17.27 * ((0:ℚ):ℝ)) (237.7 + ((0:ℚ):ℝ)) = .ok 0 := by
    rw [pyDivR, if_neg (by norm_num)]
    norm_num
  have h2 : pyLogR (((100:ℚ):ℝ) / 100) = .ok 0 := by
    rw [pyLogR, if_neg (by norm_num)]
    norm_num [Real.log_one]
  have h3 : pyDivR (237.7 * ((0:ℝ) + 0)) (17.27 - ((0:ℝ) + 0)) = .ok 0 := by
    rw [pyDivR, if_neg (by norm_num)]
    norm_num
  have h4 : pyRound1R (((0:ℚ):ℝ) - 0) = 0 := by
    rw [pyRound1R, pyRoundR]
    norm_num
  simp only [fogCore, h1, exceptBindOk, h2, h3, h4]
  simp [fogAreaAdjustment]
  norm_num [max_def, min_def]

/-- C6: `determine_fog_chance` does **not** reject a missing temperature:
`safe_float` has already turned `None` into 0.0 before the
`temperature is None` test on line 26, so with humidity 100 and a `None`
temperature the code happily computes a dew point at 0 °C and returns
probability 100 with "Fog is very likely It may persist" — not
probability 0 with "No valid sensor data.". -/
theorem c6_missing_temperature_not_rejected :
    determine_fog_chance (.num 100) .none (.num 0) ("normal")
      = .ok ⟨"Fog is very likely It may persist", 100, 0, 0, 3⟩
    ∧ "Fog is very likely It may persist" ≠ "No valid sensor data."
    ∧ (100 : ℤ) ≠ 0 := by
  refine ⟨?_, by decide, by decide⟩
  simp only [determine_fog_chance, safe_float, fogCoreEval_h100_t0, exceptMapOk]
  norm_num [pyRound]
  rfl

theorem fogCoreEval_h100_t22 :
    fogCore 100 22 12 ("rare_fog") = .ok ((22, 0, 19)) := by
  have h1 : pyDivR (17.27 * ((22:ℚ):ℝ)) (237.7 + ((22:ℚ):ℝ)) = .ok (37994/25970) := by
    rw [pyDivR, if_neg (by norm_num)]
    norm_num
  have h2 : pyLogR (((100:ℚ):ℝ) / 100) = .ok 0 := by
    rw [pyLogR, if_neg (by norm_num)]
    norm_num [Real.log_one]
  have h3 : pyDivR (237.7 * ((37994/25970:ℝ) + 0)) (17.27 - ((37994/25970:ℝ) + 0))
      = .ok 22 := by
    rw [pyDivR, if_neg (by norm_num)]
    norm_num
  have h4 : pyRound1R (((22:ℚ):ℝ) - 22) = 0 := by
    rw [pyRound1R, pyRoundR]
    norm_num
  simp only [fogCore, h1, exceptBindOk, h2, h3, h4]
  simp [fogAreaAdjustment]
  norm_num [max_def, min_def]

theorem fogProbEval_h100_t22 :
    fogProbability (.num 100) (.num 22) (.num 12) ("rare_fog") = .ok 19 := by
  simp only [fogProbability, safe_float, fogCoreEval_h100_t22, exceptMapOk]
  norm_num

/-- C10 (counterexample): with humidity 100, temperature 22, wind 12 and
area `rare_fog`, the clamped internal probability is 19, but the returned
decade value is `round(19/10)*10 = 20` — Python's round-half-to-even, not
a round-down: the decade exceeds the probability. -/
theorem c10_counterexample :
    fogProbability (.num 100) (.num 22) (.num 12) ("rare_fog") = .ok 19
    ∧ (determine_fog_chance (.num 100) (.num 22) (.num 12) ("rare_fog")).map
        FogResult.dec_probability = .ok 20
    ∧ ¬((20 : ℤ) ≤ 19) := by
  refine ⟨fogProbEval_h100_t22, ?_, by decide⟩
  simp only [determine_fog_chance, safe_float, fogCoreEval_h100_t22, exceptMapOk,
    Except.map]
  norm_num [pyRound]

theorem exceptBindErr {ε α β : Type} (e : ε) (f : α → Except ε β) :
    ((Except.error e : Except ε α) >>= f) = .error e := rfl

theorem pyRound_close (q : ℚ) : |(pyRound q : ℚ) - q| ≤ 1/2 := by
  unfold pyRound
  have h0 : (0:ℚ) ≤ q - ⌊q⌋ := sub_nonneg.mpr (Int.floor_le q)
  have h1 : q - ⌊q⌋ < 1 := by
    have := Int.lt_floor_add_one q
    linarith
  dsimp only
  split_ifs <;> rw [abs_le] <;> constructor <;> push_cast <;> linarith

theorem clampFloor_bounds (x : ℝ) :
    0 ≤ ⌊max 0 (min 100 x)⌋ ∧ ⌊max 0 (min 100 x)⌋ ≤ 100 := by
  constructor
  · exact Int.floor_nonneg.mpr (le_max_left _ _)
  · have hle : (⌊max 0 (min 100 x)⌋ : ℝ) ≤ 100 :=
      le_trans (Int.floor_le _) (max_le (by norm_num) (min_le_left _ _))
    exact_mod_cast hle

theorem fogCore_prob_bounds (h t w : ℚ) (area : String) (trip : ℝ × ℝ × ℤ)
    (hcore : fogCore h t w area = .ok trip) : 0 ≤ trip.2.2 ∧ trip.2.2 ≤ 100 := by
  unfold fogCore at hcore
  cases hd1 : pyDivR (17.27 * (t:ℝ)) (237.7 + (t:ℝ)) with
  | error e => rw [hd1, exceptBindErr] at hcore; exact absurd hcore (by simp)
  | ok a0 =>
    rw [hd1, exceptBindOk] at hcore
    cases hd2 : pyLogR ((h:ℝ) / 100) with
    | error e => rw [hd2, exceptBindErr] at hcore; exact absurd hcore (by simp)
    | ok lg =>
      rw [hd2, exceptBindOk] at hcore
      dsimp only at hcore
      cases hd3 : pyDivR (237.7 * (a0 + lg)) (17.27 - (a0 + lg)) with
      | error e => rw [hd3, exceptBindErr] at hcore; exact absurd hcore (by simp)
      | ok dew =>
        rw [hd3, exceptBindOk] at hcore
        try dsimp only at hcore
        obtain rfl : _ = trip := Except.ok.inj hcore
        exact clampFloor_bounds _

/-- C10 (amended): the internal probability is clamped to [0, 100] and
truncated to an integer, and the returned decade value is the probability
rounded **half-to-even** to the nearest multiple of 10 — it can exceed the
probability, but differs from it by at most 5. -/
theorem c10_clamp_and_decade (ph pt pw : PyVal) (area : String) (p : ℤ)
    (h : fogProbability ph pt pw area = .ok p) :
    0 ≤ p ∧ p ≤ 100
    ∧ ∃ r, determine_fog_chance ph pt pw area = .ok r
        ∧ r.dec_probability = pyRound ((p : ℚ) / 10) * 10
        ∧ p - 5 ≤ r.dec_probability ∧ r.dec_probability ≤ p + 5 := by
  have hdec : ∀ q : ℤ, q - 5 ≤ pyRound ((q : ℚ) / 10) * 10
      ∧ pyRound ((q : ℚ) / 10) * 10 ≤ q + 5 := by
    intro q
    have hc := pyRound_close ((q : ℚ) / 10)
    rw [abs_le] at hc
    constructor
    · have : (q : ℚ) - 5 ≤ (pyRound ((q : ℚ) / 10) * 10 : ℤ) := by push_cast; linarith [hc.1]
      exact_mod_cast this
    · have : ((pyRound ((q : ℚ) / 10) * 10 : ℤ) : ℚ) ≤ (q : ℚ) + 5 := by push_cast; linarith [hc.2]
      exact_mod_cast this
  unfold fogProbability at h
  unfold determine_fog_chance
  dsimp only at h ⊢
  by_cases h0 : safe_float ph 0 = 0
  · rw [if_pos h0] at h ⊢
    obtain rfl : (0 : ℤ) = p := Except.ok.inj h
    exact ⟨le_refl 0, by norm_num,
      ⟨_, rfl, by norm_num [pyRound], by norm_num [pyRound], by norm_num [pyRound]⟩⟩
  · rw [if_neg h0] at h ⊢
    by_cases h20 : safe_float ph 0 < 20
    · rw [if_pos h20] at h ⊢
      obtain rfl : (0 : ℤ) = p := Except.ok.inj h
      exact ⟨le_refl 0, by norm_num,
        ⟨_, rfl, by norm_num [pyRound], by norm_num [pyRound], by norm_num [pyRound]⟩⟩
    · rw [if_neg h20] at h ⊢
      cases hcore : fogCore (safe_float ph 0) (safe_float pt 0) (safe_float pw 0) area with
      | error e => rw [hcore] at h; exact absurd h (by simp [Except.map])
      | ok trip =>
        rw [hcore] at h
        simp only [Except.map] at h
        obtain rfl : trip.2.2 = p := Except.ok.inj h
        have hb := fogCore_prob_bounds _ _ _ _ _ hcore
        exact ⟨hb.1, hb.2, ⟨_, rfl, rfl, (hdec trip.2.2).1, (hdec trip.2.2).2⟩⟩

/-- Witness for C10 (amended) at humidity 100, temperature 22, wind 12,
area `rare_fog` (probability 19, decade 20). -/
theorem c10_clamp_and_decade_witness :
    0 ≤ (19:ℤ) ∧ (19:ℤ) ≤ 100
    ∧ ∃ r, determine_fog_chance (.num 100) (.num 22) (.num 12) ("rare_fog") = .ok r
        ∧ r.dec_probability = pyRound (((19:ℤ) : ℚ) / 10) * 10
        ∧ (19:ℤ) - 5 ≤ r.dec_probability ∧ r.dec_probability ≤ (19:ℤ) + 5 :=
  c10_clamp_and_decade (.num 100) (.num 22) (.num 12) ("rare_fog") 19 fogProbEval_h100_t22

/-- C7 (counterexample): with every argument missing, `zambretti_forecast`
raises immediately (`None.replace` → AttributeError) instead of returning a
fallback result. -/
theorem c7_counterexample :
    zambretti_forecast .none .none .none .none .none = .error ("AttributeError") := rfl

/-- C7 (amended): on the all-missing input, `determine_fog_chance` and
`estimate_low_properties` return defined fallbacks ("No valid sensor
data."; a `low`-confidence estimate), but `zambretti_forecast` raises
(AttributeError); `estimate_low_properties` is itself not total: a numeric
wind speed with a missing history puts the unset `wind_outlook` (`None`)
into `" ".join(parts)`, a TypeError. -/
theorem c7_all_missing_fallbacks :
    determine_fog_chance .none .none .none ("normal")
      = .ok ⟨"No valid sensor data.", 0, 0, 0, 0⟩
    ∧ (estimate_low_properties .none .none .none .none .none ("north")).map
        LowEstimate.confidence = .ok ("low")
    ∧ zambretti_forecast .none .none .none .none .none = .error ("AttributeError")
    ∧ estimate_low_properties .none .none (.num 10) .none .none ("north")
        = .error ("TypeError") := by
  refine ⟨?_, ?_, rfl, ?_⟩
  · simp [determine_fog_chance, safe_float]
  · simp [estimate_low_properties, lowSafeFloat, windDeltaKnots, confDirOf, confDistOf,
      confWindOf, combineConfidence, confScore, invScore, deriveWeatherTrend,
      deriveRelPosMove, compassName, deriveWindRotationLikely, deriveFrontalZone,
      deriveAnchoringRisk, impactMap, distanceRange, pyInStr, listInfix, pyLower, pyUpper,
      pyStrip, pyJoinSpace, exceptMapOk]
  · simp [estimate_low_properties, lowSafeFloat, windDeltaKnots, confDirOf, confDistOf,
      confWindOf, combineConfidence, confScore, invScore, deriveWeatherTrend,
      deriveRelPosMove, compassName, deriveWindRotationLikely, deriveFrontalZone,
      deriveAnchoringRisk, impactMap, distanceRange, pyInStr, listInfix, pyLower, pyUpper,
      pyStrip, pyJoinSpace, exceptMapOk, exceptMapErr]
